import Mathlib

/-!
Shallow embedding of the OpenVDB AX code-generation utilities
(openvdb_ax/codegen/Utils.h) and proofs about them.

LLVM scalar types are modelled as the finite inductive ScalarTy; runtime
scalar values as ScalarVal (with an explicit poison constructor for the
undefined results LLVM produces on out-of-range conversions and division
overflow); functions that can throw (OPENVDB_THROW) return Except UtilError.
Floating-point payloads are modelled as exact rationals plus an explicit
NaN; the claims proved here only exercise FP comparisons and FP-to-integer
conversions, whose LLVM semantics are faithfully captured by this model.
-/

deriving instance DecidableEq for Except

namespace OpenVDBAX

/-- LLVM scalar types handled by the AX codegen utilities: i1 (bool),
i8, i16, i32, i64, float and double. -/
inductive ScalarTy
  | bool
  | i8
  | i16
  | i32
  | i64
  | f32
  | f64
deriving DecidableEq, Repr

/-- Mirrors llvm::Type::isDoubleTy. -/
def ScalarTy.isDoubleTy : ScalarTy → Bool
  | .f64 => true
  | _ => false

/-- Mirrors llvm::Type::isFloatTy. -/
def ScalarTy.isFloatTy : ScalarTy → Bool
  | .f32 => true
  | _ => false

/-- Mirrors llvm::Type::isFloatingPointTy (for scalar types: float or double). -/
def ScalarTy.isFloatingPointTy : ScalarTy → Bool
  | .f32 => true
  | .f64 => true
  | _ => false

/-- Mirrors llvm::Type::isIntegerTy() (no width argument). -/
def ScalarTy.isIntegerTy : ScalarTy → Bool
  | .bool => true
  | .i8 => true
  | .i16 => true
  | .i32 => true
  | .i64 => true
  | _ => false

/-- Mirrors llvm::Type::isIntegerTy(width). -/
def ScalarTy.isIntegerTyN : ScalarTy → Nat → Bool
  | .bool, 1 => true
  | .i8, 8 => true
  | .i16, 16 => true
  | .i32, 32 => true
  | .i64, 64 => true
  | _, _ => false

/-- Bit width of an integer scalar type (FP widths given for completeness). -/
def ScalarTy.width : ScalarTy → Nat
  | .bool => 1
  | .i8 => 8
  | .i16 => 16
  | .i32 => 32
  | .i64 => 64
  | .f32 => 32
  | .f64 => 64

/-- Error kinds thrown by the utilities (OPENVDB_THROW sites in
codegen/Utils.h): LLVMTypeError, LLVMBinaryOperationError, LLVMTokenError. -/
inductive UtilError
  | LLVMTypeError
  | LLVMBinaryOperationError
  | LLVMTokenError
deriving DecidableEq, Repr

/-- Embedding of typePrecedence (codegen/Utils.h, lines 175-215): returns the
highest order type from two LLVM scalar types by the source's chain of
isDoubleTy / isFloatTy / isIntegerTy(n) checks, throwing LLVMTypeError if no
check matches. -/
def typePrecedence (typeA typeB : ScalarTy) : Except UtilError ScalarTy :=
  if typeA.isDoubleTy then .ok typeA
  else if typeB.isDoubleTy then .ok typeB
  else if typeA.isFloatTy then .ok typeA
  else if typeB.isFloatTy then .ok typeB
  else if typeA.isIntegerTyN 64 then .ok typeA
  else if typeB.isIntegerTyN 64 then .ok typeB
  else if typeA.isIntegerTyN 32 then .ok typeA
  else if typeB.isIntegerTyN 32 then .ok typeB
  else if typeA.isIntegerTyN 16 then .ok typeA
  else if typeB.isIntegerTyN 16 then .ok typeB
  else if typeA.isIntegerTyN 8 then .ok typeA
  else if typeB.isIntegerTyN 8 then .ok typeB
  else if typeA.isIntegerTyN 1 then .ok typeA
  else if typeB.isIntegerTyN 1 then .ok typeB
  else .error .LLVMTypeError

/-- Written from the specification's words, for comparison with the code's
typePrecedence: the rank of a scalar type in the spec's promotion order
bool < i8 < i16 < i32 < i64 < f32 < f64. -/
def specPrecedenceRank : ScalarTy → Nat
  | .bool => 0
  | .i8 => 1
  | .i16 => 2
  | .i32 => 3
  | .i64 => 4
  | .f32 => 5
  | .f64 => 6

/-- Written from the specification's words: max(a, b) under the spec's
promotion order. -/
def specPrecedenceMax (a b : ScalarTy) : ScalarTy :=
  if specPrecedenceRank a < specPrecedenceRank b then b else a

/-- LLVM cast instructions that llvmArithmeticConversion can select
(the IRBuilder Create* calls bound in codegen/Utils.h, lines 226-305). -/
inductive CastInstr
  | FPExt
  | FPTrunc
  | SIToFP
  | UIToFP
  | FPToSI
  | FPToUI
  | SExt
  | ZExt
  | Trunc
deriving DecidableEq, Repr

/-- Embedding of llvmArithmeticConversion (codegen/Utils.h, lines 226-305):
selects the cast instruction for a source/target scalar type pair by the
source's nested if-chain over the target then the source type, throwing
LLVMTypeError when no branch matches (note the branches never match a source
equal to its target). -/
def llvmArithmeticConversion (sourceType targetType : ScalarTy) :
    Except UtilError CastInstr :=
  if targetType.isDoubleTy then
    if sourceType.isFloatTy then .ok .FPExt
    else if sourceType.isIntegerTyN 64 then .ok .SIToFP
    else if sourceType.isIntegerTyN 32 then .ok .SIToFP
    else if sourceType.isIntegerTyN 16 then .ok .SIToFP
    else if sourceType.isIntegerTyN 8 then .ok .SIToFP
    else if sourceType.isIntegerTyN 1 then .ok .UIToFP
    else .error .LLVMTypeError
  else if targetType.isFloatTy then
    if sourceType.isDoubleTy then .ok .FPTrunc
    else if sourceType.isIntegerTyN 64 then .ok .SIToFP
    else if sourceType.isIntegerTyN 32 then .ok .SIToFP
    else if sourceType.isIntegerTyN 16 then .ok .SIToFP
    else if sourceType.isIntegerTyN 8 then .ok .SIToFP
    else if sourceType.isIntegerTyN 1 then .ok .UIToFP
    else .error .LLVMTypeError
  else if targetType.isIntegerTyN 64 then
    if sourceType.isDoubleTy then .ok .FPToSI
    else if sourceType.isFloatTy then .ok .FPToSI
    else if sourceType.isIntegerTyN 32 then .ok .SExt
    else if sourceType.isIntegerTyN 16 then .ok .SExt
    else if sourceType.isIntegerTyN 8 then .ok .SExt
    else if sourceType.isIntegerTyN 1 then .ok .ZExt
    else .error .LLVMTypeError
  else if targetType.isIntegerTyN 32 then
    if sourceType.isDoubleTy then .ok .FPToSI
    else if sourceType.isFloatTy then .ok .FPToSI
    else if sourceType.isIntegerTyN 64 then .ok .Trunc
    else if sourceType.isIntegerTyN 16 then .ok .SExt
    else if sourceType.isIntegerTyN 8 then .ok .SExt
    else if sourceType.isIntegerTyN 1 then .ok .ZExt
    else .error .LLVMTypeError
  else if targetType.isIntegerTyN 16 then
    if sourceType.isDoubleTy then .ok .FPToSI
    else if sourceType.isFloatTy then .ok .FPToSI
    else if sourceType.isIntegerTyN 64 then .ok .Trunc
    else if sourceType.isIntegerTyN 32 then .ok .Trunc
    else if sourceType.isIntegerTyN 8 then .ok .SExt
    else if sourceType.isIntegerTyN 1 then .ok .ZExt
    else .error .LLVMTypeError
  else if targetType.isIntegerTyN 8 then
    if sourceType.isDoubleTy then .ok .FPToSI
    else if sourceType.isFloatTy then .ok .FPToSI
    else if sourceType.isIntegerTyN 64 then .ok .Trunc
    else if sourceType.isIntegerTyN 32 then .ok .Trunc
    else if sourceType.isIntegerTyN 16 then .ok .Trunc
    else if sourceType.isIntegerTyN 1 then .ok .ZExt
    else .error .LLVMTypeError
  else if targetType.isIntegerTyN 1 then
    if sourceType.isDoubleTy then .ok .FPToUI
    else if sourceType.isFloatTy then .ok .FPToUI
    else if sourceType.isIntegerTyN 64 then .ok .Trunc
    else if sourceType.isIntegerTyN 32 then .ok .Trunc
    else if sourceType.isIntegerTyN 16 then .ok .Trunc
    else if sourceType.isIntegerTyN 8 then .ok .Trunc
    else .error .LLVMTypeError
  else .error .LLVMTypeError

/-- Binary operator tokens of the AX AST referenced by codegen/Utils.h
(ast/Tokens.h OperatorToken values used in llvmBinaryConversion and
binaryOperator). -/
inductive OperatorToken
  | PLUS
  | MINUS
  | MULTIPLY
  | DIVIDE
  | MODULO
  | EQUALSEQUALS
  | NOTEQUALS
  | MORETHAN
  | LESSTHAN
  | MORETHANOREQUAL
  | LESSTHANOREQUAL
  | AND
  | OR
  | BITAND
  | BITOR
  | BITXOR
deriving DecidableEq, Repr

/-- Operator classes returned by ast::tokens::operatorType. -/
inductive OperatorType
  | ARITHMETIC
  | RELATIONAL
  | LOGICAL
  | BITWISE
deriving DecidableEq, Repr

/-- Modelled from the spec: ast/Tokens.h (the ast::tokens::operatorType
classification) is not part of the provided sources. Per the spec, the
arithmetic operators are + - * / %, the comparisons are relational, the
logical-short-circuit operators are && and ||, and the bitwise operators
are & | ^. -/
def operatorType : OperatorToken → OperatorType
  | .PLUS => .ARITHMETIC
  | .MINUS => .ARITHMETIC
  | .MULTIPLY => .ARITHMETIC
  | .DIVIDE => .ARITHMETIC
  | .MODULO => .ARITHMETIC
  | .EQUALSEQUALS => .RELATIONAL
  | .NOTEQUALS => .RELATIONAL
  | .MORETHAN => .RELATIONAL
  | .LESSTHAN => .RELATIONAL
  | .MORETHANOREQUAL => .RELATIONAL
  | .LESSTHANOREQUAL => .RELATIONAL
  | .AND => .LOGICAL
  | .OR => .LOGICAL
  | .BITAND => .BITWISE
  | .BITOR => .BITWISE
  | .BITXOR => .BITWISE

/-- Floating-point comparison predicates selected by llvmBinaryConversion
(all ordered). -/
inductive FCmpPred
  | OEQ
  | ONE
  | OGT
  | OLT
  | OGE
  | OLE
deriving DecidableEq, Repr

/-- Integer comparison predicates selected by llvmBinaryConversion. -/
inductive ICmpPred
  | EQ
  | NE
  | SGT
  | SLT
  | SGE
  | SLE
deriving DecidableEq, Repr

/-- LLVM binary instructions that llvmBinaryConversion can select (the
IRBuilder Create* calls bound in codegen/Utils.h, lines 321-415). -/
inductive BinInstr
  | FAdd
  | FSub
  | FMul
  | FDiv
  | FRem
  | FCmp (p : FCmpPred)
  | Add
  | Sub
  | Mul
  | SDiv
  | SRem
  | ICmp (p : ICmpPred)
  | IAnd
  | IOr
  | IXor
deriving DecidableEq, Repr

/-- Embedding of llvmBinaryConversion (codegen/Utils.h, lines 321-415):
selects the binary instruction for a scalar type and operator token.
On floating-point types, logical and bitwise tokens throw
LLVMBinaryOperationError; unrecognised tokens throw LLVMTokenError; a
non-FP non-integer type throws LLVMTypeError. -/
def llvmBinaryConversion (type : ScalarTy) (token : OperatorToken) :
    Except UtilError BinInstr :=
  if type.isFloatingPointTy then
    let opType := operatorType token
    if opType = .LOGICAL ∨ opType = .BITWISE then .error .LLVMBinaryOperationError
    else if token = .PLUS then .ok .FAdd
    else if token = .MINUS then .ok .FSub
    else if token = .MULTIPLY then .ok .FMul
    else if token = .DIVIDE then .ok .FDiv
    else if token = .MODULO then .ok .FRem
    else if token = .EQUALSEQUALS then .ok (.FCmp .OEQ)
    else if token = .NOTEQUALS then .ok (.FCmp .ONE)
    else if token = .MORETHAN then .ok (.FCmp .OGT)
    else if token = .LESSTHAN then .ok (.FCmp .OLT)
    else if token = .MORETHANOREQUAL then .ok (.FCmp .OGE)
    else if token = .LESSTHANOREQUAL then .ok (.FCmp .OLE)
    else .error .LLVMTokenError
  else if type.isIntegerTy then
    if token = .PLUS then .ok .Add
    else if token = .MINUS then .ok .Sub
    else if token = .MULTIPLY then .ok .Mul
    else if token = .DIVIDE then .ok .SDiv
    else if token = .MODULO then .ok .SRem
    else if token = .EQUALSEQUALS then .ok (.ICmp .EQ)
    else if token = .NOTEQUALS then .ok (.ICmp .NE)
    else if token = .MORETHAN then .ok (.ICmp .SGT)
    else if token = .LESSTHAN then .ok (.ICmp .SLT)
    else if token = .MORETHANOREQUAL then .ok (.ICmp .SGE)
    else if token = .LESSTHANOREQUAL then .ok (.ICmp .SLE)
    else if token = .AND then .ok .IAnd
    else if token = .OR then .ok .IOr
    else if token = .BITAND then .ok .IAnd
    else if token = .BITOR then .ok .IOr
    else if token = .BITXOR then .ok .IXor
    else .error .LLVMTokenError
  else .error .LLVMTypeError

/-- Floating-point payloads: an explicit NaN or an exact numeric value.
Infinities and rounding are not modelled; the claims proved here only use
FP comparisons and FP-to-integer conversions, for which this is exact. -/
inductive FPVal
  | nan
  | num (q : ℚ)
deriving DecidableEq, Repr

/-- Runtime scalar values: an integer value, a floating-point value, or
poison (LLVM's undefined result, e.g. from an out-of-range fptosi). Each
value carries its LLVM type. -/
inductive ScalarVal
  | iv (t : ScalarTy) (n : Int)
  | fv (t : ScalarTy) (x : FPVal)
  | poison (t : ScalarTy)
deriving DecidableEq, Repr

/-- The LLVM type of a scalar value (llvm::Value::getType). -/
def ScalarVal.ty : ScalarVal → ScalarTy
  | .iv t _ => t
  | .fv t _ => t
  | .poison t => t

/-- Interpretation of a signed w-bit integer as its unsigned w-bit pattern. -/
def toUnsigned (w : Nat) (n : Int) : Nat := (n % (2 ^ w : Int)).toNat

/-- Two's-complement wrap of an integer to a signed w-bit value. -/
def wrapSigned (w : Nat) (n : Int) : Int :=
  let m := n % (2 ^ w : Int)
  if m < 2 ^ (w - 1) then m else m - 2 ^ w

/-- Truncation of a rational toward zero (the rounding used by LLVM's
fptosi and fptoui). -/
def ratTrunc (q : ℚ) : Int := q.num.tdiv q.den

/-- LLVM semantics of the ordered FP comparison predicates: any comparison
against NaN is false; numeric values compare exactly. -/
def evalFCmp (p : FCmpPred) (x y : FPVal) : Bool :=
  match x, y with
  | .num a, .num b =>
    match p with
    | .OEQ => a = b
    | .ONE => a ≠ b
    | .OGT => a > b
    | .OLT => a < b
    | .OGE => a ≥ b
    | .OLE => a ≤ b
  | _, _ => false

/-- LLVM semantics of the integer comparison predicates on signed values. -/
def evalICmp (p : ICmpPred) (a b : Int) : Bool :=
  match p with
  | .EQ => a = b
  | .NE => a ≠ b
  | .SGT => a > b
  | .SLT => a < b
  | .SGE => a ≥ b
  | .SLE => a ≤ b

/-- LLVM semantics of the cast instructions selected by
llvmArithmeticConversion, on a scalar value and a target type. Poison
propagates; fptosi and fptoui of NaN or of a value whose truncation is out
of range of the target produce poison; an instruction applied to a payload
of the wrong kind (never produced by the embedded code) is poison. -/
def evalCast (c : CastInstr) (v : ScalarVal) (target : ScalarTy) : ScalarVal :=
  match v with
  | .poison _ => .poison target
  | .iv t n =>
    match c with
    | .SExt => .iv target n
    | .ZExt => .iv target (toUnsigned t.width n : Int)
    | .Trunc => .iv target (wrapSigned target.width n)
    | .SIToFP => .fv target (.num (n : ℚ))
    | .UIToFP => .fv target (.num ((toUnsigned t.width n : Int) : ℚ))
    | _ => .poison target
  | .fv _ x =>
    match c with
    | .FPExt => .fv target x
    | .FPTrunc => .fv target x
    | .FPToSI =>
      match x with
      | .nan => .poison target
      | .num q =>
        let i := ratTrunc q
        if -(2 ^ (target.width - 1) : Int) ≤ i ∧ i < (2 ^ (target.width - 1) : Int)
        then .iv target i else .poison target
    | .FPToUI =>
      match x with
      | .nan => .poison target
      | .num q =>
        let i := ratTrunc q
        if 0 ≤ i ∧ i < (2 ^ target.width : Int) then .iv target i
        else .poison target
    | _ => .poison target

/-- LLVM semantics of FP arithmetic on exact payloads: NaN propagates,
division and remainder by zero produce NaN. -/
def evalFArith (i : BinInstr) (x y : FPVal) : FPVal :=
  match x, y with
  | .num a, .num b =>
    match i with
    | .FAdd => .num (a + b)
    | .FSub => .num (a - b)
    | .FMul => .num (a * b)
    | .FDiv => if b = 0 then .nan else .num (a / b)
    | .FRem => if b = 0 then .nan else .num (a - b * (ratTrunc (a / b) : ℚ))
    | _ => .nan
  | _, _ => .nan

/-- LLVM semantics of the binary instructions selected by
llvmBinaryConversion, at the bit width of the left operand's type. Integer
arithmetic wraps (the embedded code binds no-unsigned-wrap and
no-signed-wrap to false); sdiv and srem by zero, and their INT_MIN overflow
case, are poison; poison operands propagate; an instruction applied to
payloads of the wrong kind is poison. -/
def evalBin (i : BinInstr) (a b : ScalarVal) : ScalarVal :=
  match a, b with
  | .iv t na, .iv _ nb =>
    let w := t.width
    match i with
    | .Add => .iv t (wrapSigned w (na + nb))
    | .Sub => .iv t (wrapSigned w (na - nb))
    | .Mul => .iv t (wrapSigned w (na * nb))
    | .SDiv =>
      if nb = 0 ∨ (na = -(2 ^ (w - 1) : Int) ∧ nb = -1) then .poison t
      else .iv t (na.tdiv nb)
    | .SRem =>
      if nb = 0 ∨ (na = -(2 ^ (w - 1) : Int) ∧ nb = -1) then .poison t
      else .iv t (na.tmod nb)
    | .ICmp p => .iv .bool (if evalICmp p na nb then 1 else 0)
    | .IAnd => .iv t (wrapSigned w ((toUnsigned w na).land (toUnsigned w nb) : Int))
    | .IOr => .iv t (wrapSigned w ((toUnsigned w na).lor (toUnsigned w nb) : Int))
    | .IXor => .iv t (wrapSigned w ((toUnsigned w na).xor (toUnsigned w nb) : Int))
    | _ => .poison t
  | .fv t xa, .fv _ xb =>
    match i with
    | .FCmp p => .iv .bool (if evalFCmp p xa xb then 1 else 0)
    | .FAdd | .FSub | .FMul | .FDiv | .FRem => .fv t (evalFArith i xa xb)
    | _ => .poison t
  | a, _ => .poison a.ty

/-- Embedding of the scalar arithmeticConversion (codegen/Utils.h, lines
424-439): if the value's type already equals the target type the value is
returned unchanged; otherwise the cast selected by llvmArithmeticConversion
is applied. -/
def arithmeticConversion (value : ScalarVal) (targetType : ScalarTy) :
    Except UtilError ScalarVal :=
  if value.ty = targetType then .ok value
  else
    match llvmArithmeticConversion value.ty targetType with
    | .error e => .error e
    | .ok c => .ok (evalCast c value targetType)

/-- A fixed-length LLVM array of scalar values together with its element
type (the allocation an array pointer in codegen/Utils.h points to). -/
structure ArrayVal where
  elemTy : ScalarTy
  elems : List ScalarVal
deriving DecidableEq, Repr

/-- Result of arrayCast, distinguishing whether the returned pointer is the
original incoming pointer or a freshly allocated array. -/
inductive PtrResult
  | original (a : ArrayVal)
  | fresh (a : ArrayVal)
deriving DecidableEq, Repr

/-- Embedding of arrayCast (codegen/Utils.h, lines 450-487): if the source
element type equals the target element type the original pointer is returned
unchanged; otherwise a new array of equal length is allocated and each
loaded element is cast with the function selected by
llvmArithmeticConversion. -/
def arrayCast (ptrToArray : ArrayVal) (targetElementType : ScalarTy) :
    Except UtilError PtrResult :=
  let sourceElementType := ptrToArray.elemTy
  if sourceElementType = targetElementType then .ok (.original ptrToArray)
  else
    match llvmArithmeticConversion sourceElementType targetElementType with
    | .error e => .error e
    | .ok c =>
      .ok (.fresh ⟨targetElementType,
        ptrToArray.elems.map (fun v => evalCast c v targetElementType)⟩)

/-- Embedding of boolComparison (codegen/Utils.h, lines 564-579): a C-style
boolean test. Floating-point values are compared to 0.0 with the ordered
FCmpONE; i1 values with ICmpNE against 0; other integers with ICmpNE
against signed 0; any other type throws LLVMTypeError. -/
def boolComparison (value : ScalarVal) : Except UtilError ScalarVal :=
  let type := value.ty
  if type.isFloatingPointTy then
    .ok (evalBin (.FCmp .ONE) value (.fv type (.num 0)))
  else if type.isIntegerTyN 1 then
    .ok (evalBin (.ICmp .NE) value (.iv type 0))
  else if type.isIntegerTy then
    .ok (evalBin (.ICmp .NE) value (.iv type 0))
  else .error .LLVMTypeError

/-- Embedding of binaryOperator (codegen/Utils.h, lines 592-624). Mismatched
operand types throw LLVMTypeError before anything is emitted. Logical
tokens first run boolComparison on both operands; bitwise tokens on
floating-point operands first convert both operands to i64 and set the
optional warnings string (modelled as the second component of the result).
The instruction selected by llvmBinaryConversion for the (possibly updated)
left-operand type is then applied. -/
def binaryOperator (lhs rhs : ScalarVal) (token : OperatorToken) :
    Except UtilError (ScalarVal × Option String) :=
  let lhsType := lhs.ty
  if lhsType ≠ rhs.ty then .error .LLVMTypeError
  else
    let opType := operatorType token
    if opType = .LOGICAL then
      match boolComparison lhs, boolComparison rhs with
      | .ok lhs2, .ok rhs2 =>
        match llvmBinaryConversion lhs2.ty token with
        | .error e => .error e
        | .ok instr => .ok (evalBin instr lhs2 rhs2, none)
      | .error e, _ => .error e
      | _, .error e => .error e
    else if opType = .BITWISE ∧ lhsType.isFloatingPointTy then
      match arithmeticConversion rhs .i64, arithmeticConversion lhs .i64 with
      | .ok rhs2, .ok lhs2 =>
        match llvmBinaryConversion lhs2.ty token with
        | .error e => .error e
        | .ok instr =>
          .ok (evalBin instr lhs2 rhs2, some "Implicit cast from float to int.")
      | .error e, _ => .error e
      | _, .error e => .error e
    else
      match llvmBinaryConversion lhsType token with
      | .error e => .error e
      | .ok instr => .ok (evalBin instr lhs rhs, none)

/-- Embedding of arrayUnpack with loadElements = true (codegen/Utils.h,
lines 651-666): the loaded elements of the array, in index order. -/
def arrayUnpack (ptrToArray : ArrayVal) : List ScalarVal :=
  ptrToArray.elems

/-- Embedding of array3Pack (codegen/Utils.h, lines 703-728): the three
values are converted to the highest order of their types as defined by
typePrecedence, then stored into a newly allocated 3-element array. -/
def array3Pack (value1 value2 value3 : ScalarVal) :
    Except UtilError ArrayVal :=
  match typePrecedence value1.ty value2.ty with
  | .error e => .error e
  | .ok t0 =>
    match typePrecedence t0 value3.ty with
    | .error e => .error e
    | .ok type =>
      match arithmeticConversion value1 type, arithmeticConversion value2 type,
            arithmeticConversion value3 type with
      | .ok v1, .ok v2, .ok v3 => .ok ⟨type, [v1, v2, v3]⟩
      | .error e, _, _ => .error e
      | _, .error e, _ => .error e
      | _, _, .error e => .error e

/-- C1: For every pair of scalar types a, b drawn from
\x7bbool, i8, i16, i32, i64, f32, f64\x7d, typePrecedence(a, b) returns
max(a, b) under the order bool < i8 < i16 < i32 < i64 < f32 < f64; in
particular the promoted type of f32 with i64 is f32. -/
theorem typePrecedence_is_spec_max :
    (∀ a b : ScalarTy, typePrecedence a b = .ok (specPrecedenceMax a b)) ∧
    typePrecedence .f32 .i64 = .ok .f32 := by
  constructor
  · intro a b
    cases a <;> cases b <;> rfl
  · rfl

/-- C5: For all scalar types a and b, typePrecedence(a, b) equals
typePrecedence(b, a), and the returned type is always one of the two
input types. -/
theorem typePrecedence_comm_and_selective :
    ∀ a b : ScalarTy,
      typePrecedence a b = typePrecedence b a ∧
      (typePrecedence a b = .ok a ∨ typePrecedence a b = .ok b) := by
  intro a b
  cases a <;> cases b <;> exact ⟨rfl, by first | exact Or.inl rfl | exact Or.inr rfl⟩

/-- An fptosi cast yields either an integer value or poison, in both cases
carrying the target type. -/
theorem evalCast_fptosi_shape (target : ScalarTy) (v : ScalarVal) :
    (∃ n, evalCast .FPToSI v target = .iv target n) ∨
    evalCast .FPToSI v target = .poison target := by
  rcases v with ⟨t, n⟩ | ⟨t, x⟩ | t
  · exact Or.inr rfl
  · cases x with
    | nan => exact Or.inr rfl
    | num q =>
      simp only [evalCast]
      split
      · exact Or.inl ⟨_, rfl⟩
      · exact Or.inr rfl
  · exact Or.inr rfl

/-- The bitwise-on-floating-point branch of binaryOperator, for any bitwise
token whose i64 instruction selection is known. -/
theorem binaryOperator_bitfp_aux (t : ScalarTy) (x y : FPVal)
    (tok : OperatorToken) (instr : BinInstr)
    (ht : t.isFloatingPointTy = true)
    (htok : operatorType tok = .BITWISE)
    (h1 : llvmBinaryConversion .i64 tok = .ok instr) :
    binaryOperator (.fv t x) (.fv t y) tok =
      .ok (evalBin instr
             (evalCast .FPToSI (.fv t x) .i64)
             (evalCast .FPToSI (.fv t y) .i64),
           some "Implicit cast from float to int.") := by
  rcases evalCast_fptosi_shape .i64 (.fv t x) with ⟨nx, hx⟩ | hx <;>
    rcases evalCast_fptosi_shape .i64 (.fv t y) with ⟨ny, hy⟩ | hy <;>
      cases t <;> try exact absurd ht (by decide)
  all_goals
    simp [binaryOperator, arithmeticConversion, llvmArithmeticConversion,
      hx, hy, htok, h1, ScalarVal.ty,
      ScalarTy.isDoubleTy, ScalarTy.isFloatTy, ScalarTy.isFloatingPointTy,
      ScalarTy.isIntegerTy, ScalarTy.isIntegerTyN]

/-- C3: For every logical or bitwise operator token paired with a
floating-point operand type, llvmBinaryConversion fails with a
BinaryOperationError and never returns a binary function for that
combination. -/
theorem llvmBinaryConversion_fp_logical_bitwise_fails :
    ∀ (t : ScalarTy) (tok : OperatorToken),
      t.isFloatingPointTy = true →
      (operatorType tok = .LOGICAL ∨ operatorType tok = .BITWISE) →
      llvmBinaryConversion t tok = .error .LLVMBinaryOperationError := by
  intro t tok ht htok
  cases t <;> cases tok <;>
    first
      | rfl
      | exact absurd ht (by decide)
      | exact absurd htok (by decide)

/-- Witness for C3 at the concrete input (f32, bitwise and). -/
theorem llvmBinaryConversion_fp_logical_bitwise_fails_witness :
    llvmBinaryConversion .f32 .BITAND = .error .LLVMBinaryOperationError :=
  llvmBinaryConversion_fp_logical_bitwise_fails .f32 .BITAND rfl (Or.inr rfl)

/-- C4: For floating-point operands, the comparison operators are lowered
to the ordered predicates OEQ, ONE, OLT, OGT, OLE, OGE, and every ordered
predicate evaluates to false when either operand is NaN, including the
not-equals predicate ONE. -/
theorem llvmBinaryConversion_fp_comparisons_ordered :
    ∀ t : ScalarTy, t.isFloatingPointTy = true →
      (llvmBinaryConversion t .EQUALSEQUALS = .ok (.FCmp .OEQ) ∧
       llvmBinaryConversion t .NOTEQUALS = .ok (.FCmp .ONE) ∧
       llvmBinaryConversion t .LESSTHAN = .ok (.FCmp .OLT) ∧
       llvmBinaryConversion t .MORETHAN = .ok (.FCmp .OGT) ∧
       llvmBinaryConversion t .LESSTHANOREQUAL = .ok (.FCmp .OLE) ∧
       llvmBinaryConversion t .MORETHANOREQUAL = .ok (.FCmp .OGE)) ∧
      (∀ (p : FCmpPred) (x y : FPVal),
        (x = .nan ∨ y = .nan) → evalFCmp p x y = false) := by
  intro t ht
  refine ⟨?_, ?_⟩
  · cases t <;> first
      | exact ⟨rfl, rfl, rfl, rfl, rfl, rfl⟩
      | exact absurd ht (by decide)
  · intro p x y h
    rcases h with h | h
    · subst h; cases p <;> cases y <;> rfl
    · subst h; cases p <;> cases x <;> rfl

/-- Witness for C4 at the concrete inputs (f64, not-equals) and
(ONE, NaN, 0.0). -/
theorem llvmBinaryConversion_fp_comparisons_ordered_witness :
    llvmBinaryConversion .f64 .NOTEQUALS = .ok (.FCmp .ONE) ∧
    evalFCmp .ONE .nan (.num 0) = false :=
  ⟨(llvmBinaryConversion_fp_comparisons_ordered .f64 rfl).1.2.1,
   (llvmBinaryConversion_fp_comparisons_ordered .f64 rfl).2
     .ONE .nan (.num 0) (Or.inl rfl)⟩

/-- C2: For every pair of floating-point operands of the same type and
every bitwise operator token, binaryOperator does not fail: it implicitly
casts both operands to i64 (via the fptosi cast selected by
llvmArithmeticConversion), sets the optional warnings string to report the
implicit float-to-int cast, and performs the integer bitwise instruction
selected for i64 on the converted operands. -/
theorem binaryOperator_fp_bitwise_casts_to_i64 :
    ∀ (t : ScalarTy) (x y : FPVal) (tok : OperatorToken),
      t.isFloatingPointTy = true →
      operatorType tok = .BITWISE →
      ∃ instr : BinInstr,
        llvmBinaryConversion .i64 tok = .ok instr ∧
        binaryOperator (.fv t x) (.fv t y) tok =
          .ok (evalBin instr
                 (evalCast .FPToSI (.fv t x) .i64)
                 (evalCast .FPToSI (.fv t y) .i64),
               some "Implicit cast from float to int.") := by
  intro t x y tok ht htok
  cases tok <;> try exact absurd htok (by decide)
  · exact ⟨.IAnd, rfl, binaryOperator_bitfp_aux t x y .BITAND .IAnd ht htok rfl⟩
  · exact ⟨.IOr, rfl, binaryOperator_bitfp_aux t x y .BITOR .IOr ht htok rfl⟩
  · exact ⟨.IXor, rfl, binaryOperator_bitfp_aux t x y .BITXOR .IXor ht htok rfl⟩

/-- Witness for C2 at the concrete input (f64 values 3.0 and 5.0, bitwise
and): 3 & 5 = 1 after both operands convert to i64. -/
theorem binaryOperator_fp_bitwise_casts_to_i64_witness :
    binaryOperator (.fv .f64 (.num 3)) (.fv .f64 (.num 5)) .BITAND =
      .ok (.iv .i64 1, some "Implicit cast from float to int.") := by
  obtain ⟨instr, h1, h2⟩ :=
    binaryOperator_fp_bitwise_casts_to_i64 .f64 (.num 3) (.num 5) .BITAND rfl rfl
  have h0 : llvmBinaryConversion .i64 .BITAND = .ok .IAnd := rfl
  injection h1.symm.trans h0 with h
  subst h
  exact h2.trans (by decide)

/-- C10: For every operator token, whenever the two operands of
binaryOperator have different LLVM types the call raises a type error
before any operation is produced. -/
theorem binaryOperator_mismatched_types_error :
    ∀ (lhs rhs : ScalarVal) (token : OperatorToken),
      lhs.ty ≠ rhs.ty →
      binaryOperator lhs rhs token = .error .LLVMTypeError := by
  intro lhs rhs token h
  simp [binaryOperator, h]

/-- Witness for C10 at the concrete input (i32 value, f32 value, plus). -/
theorem binaryOperator_mismatched_types_error_witness :
    binaryOperator (.iv .i32 1) (.fv .f32 (.num 0)) .PLUS =
      .error .LLVMTypeError :=
  binaryOperator_mismatched_types_error (.iv .i32 1) (.fv .f32 (.num 0)) .PLUS
    (by decide)

/-- C6: boolComparison coerces a floating-point value to bool by an ordered
not-equal comparison against 0.0 (so NaN coerces to false) and an integer
value by a not-equal comparison against 0 (so every nonzero integer coerces
to true). -/
theorem boolComparison_c_style :
    ∀ t : ScalarTy,
      (t.isFloatingPointTy = true →
        (∀ x : FPVal, boolComparison (.fv t x) =
          .ok (.iv .bool (if evalFCmp .ONE x (.num 0) then 1 else 0))) ∧
        boolComparison (.fv t .nan) = .ok (.iv .bool 0)) ∧
      (t.isIntegerTy = true →
        ∀ n : Int, boolComparison (.iv t n) =
          .ok (.iv .bool (if n ≠ 0 then 1 else 0))) := by
  intro t
  constructor
  · intro ht
    cases t <;> try exact absurd ht (by decide)
    all_goals exact ⟨fun x => rfl, rfl⟩
  · intro ht n
    cases t <;> try exact absurd ht (by decide)
    all_goals
      by_cases h : n = 0 <;>
        simp [boolComparison, evalBin, evalICmp, ScalarVal.ty,
          ScalarTy.isFloatingPointTy, ScalarTy.isIntegerTy,
          ScalarTy.isIntegerTyN, h]

/-- Witness for C6 at the concrete inputs (f64 NaN) and (i32 value 5). -/
theorem boolComparison_c_style_witness :
    boolComparison (.fv .f64 .nan) = .ok (.iv .bool 0) ∧
    boolComparison (.iv .i32 5) = .ok (.iv .bool 1) := by
  refine ⟨((boolComparison_c_style .f64).1 rfl).2, ?_⟩
  have h := (boolComparison_c_style .i32).2 rfl 5
  simpa using h

/-- Counterexample to C7: the cast from double to bool is the fptoui
conversion, not a compare-nonzero, and the nonzero value 0.5 casts to
false under it. -/
theorem llvmArithmeticConversion_bool_fp_counterexample :
    llvmArithmeticConversion .f64 .bool = .ok .FPToUI ∧
    evalCast .FPToUI (.fv .f64 (.num (mkRat 1 2))) .bool = .iv .bool 0 ∧
    mkRat 1 2 ≠ 0 := by
  refine ⟨rfl, ?_, by decide⟩
  decide

/-- C7 (amended): the arithmetic cast with target type bool converts an
integer source (i8 through i64) via truncation and a floating-point source
via the fptoui conversion, under which a floating-point value casts to the
bool given by its truncation toward zero when that truncation is 0 or 1,
and to poison otherwise; in particular a nonzero value below 1 casts to
false. -/
theorem llvmArithmeticConversion_bool_target :
    ∀ s : ScalarTy,
      (s.isIntegerTy = true → s ≠ .bool →
        llvmArithmeticConversion s .bool = .ok .Trunc) ∧
      (s.isFloatingPointTy = true →
        llvmArithmeticConversion s .bool = .ok .FPToUI ∧
        ∀ q : ℚ, evalCast .FPToUI (.fv s (.num q)) .bool =
          if ratTrunc q = 0 ∨ ratTrunc q = 1
          then .iv .bool (ratTrunc q) else .poison .bool) := by
  intro s
  constructor
  · intro hi hne
    cases s <;> first
      | rfl
      | exact absurd rfl hne
      | exact absurd hi (by decide)
  · intro hf
    cases s <;> try exact absurd hf (by decide)
    all_goals
      refine ⟨rfl, fun q => ?_⟩
      have hw : ((2 : Int) ^ ScalarTy.width .bool) = 2 := by decide
      simp only [evalCast, hw]
      split_ifs with h1 h2 h2 <;> first | rfl | omega

/-- Witness for C7 (amended) at the concrete inputs (i32 source) and
(f64 source with value 0.5). -/
theorem llvmArithmeticConversion_bool_target_witness :
    llvmArithmeticConversion .i32 .bool = .ok .Trunc ∧
    llvmArithmeticConversion .f64 .bool = .ok .FPToUI ∧
    evalCast .FPToUI (.fv .f64 (.num (mkRat 1 2))) .bool = .iv .bool 0 := by
  refine ⟨(llvmArithmeticConversion_bool_target .i32).1 rfl (by decide),
    ((llvmArithmeticConversion_bool_target .f64).2 rfl).1, ?_⟩
  have h := ((llvmArithmeticConversion_bool_target .f64).2 rfl).2 (mkRat 1 2)
  simpa using h

/-- C8: arrayCast returns the original pointer unchanged (allocating
nothing) when the source element type equals the target element type, and
arithmeticConversion returns the value itself unchanged when its type
equals the target type. -/
theorem cast_identity_on_equal_types :
    ∀ (a : ArrayVal) (v : ScalarVal) (t : ScalarTy),
      (a.elemTy = t → arrayCast a t = .ok (.original a)) ∧
      (v.ty = t → arithmeticConversion v t = .ok v) := by
  intro a v t
  constructor
  · intro h
    simp [arrayCast, h]
  · intro h
    simp [arithmeticConversion, h]

/-- Witness for C8 at concrete inputs: a 3-element f32 array cast to f32,
and an i32 value converted to i32. -/
theorem cast_identity_on_equal_types_witness :
    arrayCast ⟨.f32, [.fv .f32 (.num 1), .fv .f32 (.num 2), .fv .f32 (.num 3)]⟩ .f32 =
      .ok (.original ⟨.f32, [.fv .f32 (.num 1), .fv .f32 (.num 2), .fv .f32 (.num 3)]⟩) ∧
    arithmeticConversion (.iv .i32 7) .i32 = .ok (.iv .i32 7) :=
  ⟨(cast_identity_on_equal_types
      ⟨.f32, [.fv .f32 (.num 1), .fv .f32 (.num 2), .fv .f32 (.num 3)]⟩
      (.iv .i32 7) .f32).1 rfl,
   (cast_identity_on_equal_types
      ⟨.f32, [.fv .f32 (.num 1), .fv .f32 (.num 2), .fv .f32 (.num 3)]⟩
      (.iv .i32 7) .i32).2 rfl⟩

/-- C9: for three loaded scalar values of the same type, array3Pack stores
exactly the three input values (no conversion is applied), and unpacking
the packed array yields them back unchanged. -/
theorem array3Pack_unpack_roundtrip :
    ∀ x y z : ScalarVal, x.ty = y.ty → y.ty = z.ty →
      array3Pack x y z = .ok ⟨x.ty, [x, y, z]⟩ ∧
      arrayUnpack ⟨x.ty, [x, y, z]⟩ = [x, y, z] := by
  intro x y z h1 h2
  have h3 : z.ty = x.ty := (h1.trans h2).symm
  have hprec : typePrecedence x.ty x.ty = .ok x.ty := by
    cases hx : x.ty <;> rfl
  have e1 : arithmeticConversion x x.ty = .ok x := by
    simp [arithmeticConversion]
  have e2 : arithmeticConversion y x.ty = .ok y := by
    simp [arithmeticConversion, ← h1]
  have e3 : arithmeticConversion z x.ty = .ok z := by
    simp [arithmeticConversion, h3]
  refine ⟨?_, rfl⟩
  simp [array3Pack, ← h1, h3, hprec, e1, e2, e3]

/-- Witness for C9 at the concrete input (i32 values 1, 2, 3). -/
theorem array3Pack_unpack_roundtrip_witness :
    array3Pack (.iv .i32 1) (.iv .i32 2) (.iv .i32 3) =
      .ok ⟨.i32, [.iv .i32 1, .iv .i32 2, .iv .i32 3]⟩ ∧
    arrayUnpack ⟨.i32, [.iv .i32 1, .iv .i32 2, .iv .i32 3]⟩ =
      [.iv .i32 1, .iv .i32 2, .iv .i32 3] :=
  array3Pack_unpack_roundtrip (.iv .i32 1) (.iv .i32 2) (.iv .i32 3) rfl rfl

end OpenVDBAX
